import Mathlib

set_option maxRecDepth 10000

/-!
Verification development for the duckyci polling bot (src/main.py).

The embedding models the pure decision logic of the program:
the recency cache (module-level `last_seen_ids` set + `last_seen_queue`
deque with `maxlen=MAX_CACHE_SIZE`), the store checker `check_store`,
the capacity checker `check_capacity`, and the notifier
`send_telegram_message`.  HTTP responses are pre-parsed into typed
structures; the messages handed to the notifier and the error log
events are returned explicitly.  Item identifiers are modelled as
natural numbers; Python truthiness of an id (`if item_id:`) is `id ≠ 0`
for a present id and false for an absent one.
-/

namespace DuckyBot

/-- Constant `MAX_CACHE_SIZE = 1000` (src/main.py line 41). -/
def MAX_CACHE_SIZE : Nat := 1000

/-- The module-level recency cache: `last_seen_ids` (a Python `set`,
modelled as a duplicate-free list) and `last_seen_queue`
(`deque(maxlen=MAX_CACHE_SIZE)`, oldest first). -/
structure CacheState where
  last_seen_ids : List Nat
  last_seen_queue : List Nat
deriving Repr, DecidableEq

/-- Initial cache: `set()` and an empty deque (src/main.py lines 42-43). -/
def initialCache : CacheState := { last_seen_ids := [], last_seen_queue := [] }

/-- Semantics of `deque.append` on a deque created with `maxlen=MAX_CACHE_SIZE`:
the element is appended on the right and, if the deque would exceed
`maxlen`, elements are silently discarded from the left so that the
length never exceeds `maxlen`. -/
def dequeAppend (q : List Nat) (x : Nat) : List Nat :=
  let grown := q ++ [x]
  if MAX_CACHE_SIZE < grown.length then grown.drop (grown.length - MAX_CACHE_SIZE)
  else grown

/-- The cache-update block of `check_store` (src/main.py lines 82-87),
executed once the guard `item_id and item_id not in last_seen_ids`
has passed: `last_seen_ids.add(item_id)`, `last_seen_queue.append(item_id)`,
then `if len(last_seen_queue) > MAX_CACHE_SIZE:` pop the oldest from the
queue and discard it from the set.  (Because the deque has
`maxlen=MAX_CACHE_SIZE`, its length after `append` never exceeds
`MAX_CACHE_SIZE`, so the popleft/discard branch is modelled faithfully
but can never execute.) -/
def observeRecord (c : CacheState) (item_id : Nat) : CacheState :=
  let ids := if item_id ∈ c.last_seen_ids then c.last_seen_ids
             else c.last_seen_ids ++ [item_id]
  let q := dequeAppend c.last_seen_queue item_id
  if MAX_CACHE_SIZE < q.length then
    match q with
    | [] => { last_seen_ids := ids, last_seen_queue := [] }
    | oldest :: rest =>
        { last_seen_ids := ids.filter (fun x => x ≠ oldest), last_seen_queue := rest }
  else { last_seen_ids := ids, last_seen_queue := q }

/-- The per-item observe step of the store checker
(src/main.py lines 79-87): the guard
`if item_id and item_id not in last_seen_ids:` followed by the
record/evict block.  Returns the updated cache and whether the id was
new (true exactly when the item would be collected for notification). -/
def observe (c : CacheState) (item_id : Nat) : CacheState × Bool :=
  if item_id ≠ 0 ∧ item_id ∉ c.last_seen_ids then (observeRecord c item_id, true)
  else (c, false)

/-- Run `observe` over a whole sequence of item ids, starting from `c`. -/
def runObserve (ids : List Nat) (c : CacheState) : CacheState :=
  ids.foldl (fun s i => (observe s i).1) c

/-- One observe step on a fresh nonzero id while the queue is below
capacity: the id is appended to both the set and the queue and `true`
is returned. -/
theorem observe_fresh (c : CacheState) (i : Nat) (hi : i ≠ 0)
    (hmem : i ∉ c.last_seen_ids)
    (hlen : c.last_seen_queue.length < MAX_CACHE_SIZE) :
    observe c i = ({ last_seen_ids := c.last_seen_ids ++ [i],
                     last_seen_queue := c.last_seen_queue ++ [i] }, true) := by
  unfold observe observeRecord dequeAppend
  rw [if_pos ⟨hi, hmem⟩, if_neg hmem]
  have hg : ¬ (MAX_CACHE_SIZE < (c.last_seen_queue ++ [i]).length) := by
    simp only [List.length_append, List.length_singleton]
    omega
  simp only [hg, if_false]

/-- One observe step on a fresh nonzero id while the queue is exactly at
capacity: the id is appended to the set, and the deque silently drops
its oldest element; the popleft/discard branch does not fire, so the
set is not shrunk. -/
theorem observe_fresh_full (c : CacheState) (i : Nat) (hi : i ≠ 0)
    (hmem : i ∉ c.last_seen_ids)
    (hlen : c.last_seen_queue.length = MAX_CACHE_SIZE) :
    observe c i = ({ last_seen_ids := c.last_seen_ids ++ [i],
                     last_seen_queue := (c.last_seen_queue ++ [i]).drop 1 }, true) := by
  unfold observe observeRecord dequeAppend
  rw [if_pos ⟨hi, hmem⟩, if_neg hmem]
  have hlen' : (c.last_seen_queue ++ [i]).length = MAX_CACHE_SIZE + 1 := by
    simp only [List.length_append, List.length_singleton, hlen]
  have hg : MAX_CACHE_SIZE < (c.last_seen_queue ++ [i]).length := by
    rw [hlen']; omega
  have hd : (c.last_seen_queue ++ [i]).length - MAX_CACHE_SIZE = 1 := by
    rw [hlen']; omega
  have hg2 : ¬ (MAX_CACHE_SIZE < ((c.last_seen_queue ++ [i]).drop 1).length) := by
    simp only [List.length_drop, hlen']
    omega
  simp only [hg, if_true, hd, hg2, if_false]

/-- Every element of `[1, 2, …, k]` is at most `k`. -/
theorem mem_seq_le (k m : Nat) (h : m ∈ (List.range k).map (fun n => n + 1)) :
    m ≤ k := by
  rcases List.mem_map.mp h with ⟨n, hn, rfl⟩
  have := List.mem_range.mp hn
  omega

/-- Observing the fresh ids `1, …, k` (for `k ≤ 1000`) from the empty
cache fills set and queue with exactly those ids in order. -/
theorem run_upto (k : Nat) (hk : k ≤ MAX_CACHE_SIZE) :
    runObserve ((List.range k).map (fun n => n + 1)) initialCache
      = { last_seen_ids := (List.range k).map (fun n => n + 1),
          last_seen_queue := (List.range k).map (fun n => n + 1) } := by
  induction k with
  | zero => rfl
  | succ k ih =>
    have hk' : k ≤ MAX_CACHE_SIZE := Nat.le_of_succ_le hk
    rw [List.range_succ, List.map_append]
    unfold runObserve at ih ⊢
    rw [List.foldl_append, ih hk']
    simp only [List.map_cons, List.map_nil, List.foldl_cons, List.foldl_nil]
    rw [observe_fresh _ _ (by omega)
      (fun h => by have := mem_seq_le k (k + 1) h; omega)
      (by simp only [List.length_map, List.length_range]; omega)]

/-- The cache after observing the 1001 distinct nonzero ids 1,2,…,1001
in order, starting from the empty cache. -/
def s1001 : CacheState :=
  runObserve ((List.range 1001).map (fun n => n + 1)) initialCache

/-- Characterisation of the run of ids 1..1001: every id stays in
`last_seen_ids` (1001 entries), while the deque silently dropped id 1
and holds 2..1001.  The popleft/discard branch of src/main.py
lines 85-87 never fires. -/
theorem s1001_spec :
    s1001 = { last_seen_ids := (List.range 1001).map (fun n => n + 1),
              last_seen_queue := (List.range 1000).map (fun n => n + 2) } := by
  unfold s1001
  have h1001 : (1001 : Nat) = 1000 + 1 := rfl
  rw [h1001, List.range_succ, List.map_append]
  unfold runObserve
  rw [List.foldl_append]
  have hbase := run_upto 1000 (Nat.le_refl _)
  unfold runObserve at hbase
  rw [hbase]
  simp only [List.map_cons, List.map_nil, List.foldl_cons, List.foldl_nil]
  have hmem : (1000 + 1 : Nat) ∉ (List.range 1000).map (fun n => n + 1) := by
    intro h
    have := mem_seq_le 1000 (1000 + 1) h
    omega
  have hlen : ((List.range 1000).map (fun n => n + 1)).length = MAX_CACHE_SIZE := by
    simp only [List.length_map, List.length_range]
    rfl
  rw [observe_fresh_full
    { last_seen_ids := (List.range 1000).map (fun n => n + 1),
      last_seen_queue := (List.range 1000).map (fun n => n + 1) } (1000 + 1)
    (by omega) hmem hlen]
  have hids : (List.range (1000 + 1)).map (fun n => n + 1)
      = (List.range 1000).map (fun n => n + 1) ++ [1000 + 1] := by
    rw [List.range_succ, List.map_append]
    simp only [List.map_cons, List.map_nil]
  have hq : (List.range 1000).map (fun n => n + 2)
      = ((List.range 1000).map (fun n => n + 1) ++ [1000 + 1]).drop 1 := by
    conv_rhs => rw [hids.symm, List.range_succ_eq_map]
    simp only [List.map_cons, List.map_map, List.drop_one, List.tail_cons]
    exact List.map_congr_left fun n _ => by
      simp only [Function.comp_apply, Nat.succ_eq_add_one]
  rw [hq]

/-- Error events emitted through `logger.error` by the checkers and the
notifier (the log text is abstracted into an event per call site). -/
inductive LogEvent where
  | storeHttpError (status : Nat)
  | capacityHttpError (status : Nat)
  | capacityNotAList
deriving Repr, DecidableEq

/-- One record of the store listing (an element of `data["data"]` in
`check_store`).  Each field is `none` when the corresponding key is
absent from the JSON record. -/
structure StoreItem where
  id : Option Nat
  name : Option String
  location : Option String
  price : Option String
deriving Repr, DecidableEq

/-- Python truthiness of `store.get("id")`: false when the key is
absent (`None`) and false for the falsy id `0`. -/
def idTruthy : Option Nat → Bool
  | none => false
  | some n => n != 0

/-- The notification line built for one new item (src/main.py
lines 89-92): `name` defaults to `"未知商品"`, `location` to `""` and
`price` to `"N/A"`. -/
def renderItem (store : StoreItem) : String :=
  "📦 " ++ store.name.getD "未知商品" ++ "\n📍 " ++ store.location.getD "" ++
    "\n💰 " ++ store.price.getD "N/A"

/-- The loop body of `check_store` (src/main.py lines 78-92) for one
record: `item_id = store.get("id")`; under the guard
`if item_id and item_id not in last_seen_ids:` the cache is updated and
the rendered item is appended to `new_items`. -/
def stepStore (acc : CacheState × List String) (store : StoreItem) :
    CacheState × List String :=
  match store.id with
  | none => acc
  | some item_id =>
      if item_id ≠ 0 ∧ item_id ∉ acc.1.last_seen_ids then
        (observeRecord acc.1 item_id, acc.2 ++ [renderItem store])
      else acc

/-- The store endpoint response, pre-parsed: the HTTP status and the
value of `data.get("data", [])` (`none` when the key is absent). -/
structure StoreResponse where
  status : Nat
  data : Option (List StoreItem)
deriving Repr, DecidableEq

/-- Result of one `check_store` call: the cache after the call, the
messages handed to `send_telegram_message`, and the error log events. -/
structure StoreOutcome where
  cache : CacheState
  sent : List String
  logs : List LogEvent
deriving Repr, DecidableEq

/-- Function `check_store` (src/main.py lines 65-99) on a pre-parsed response:
a non-200 status is logged and the function returns with the cache
untouched; otherwise each record of `data.get("data", [])` is run
through the cache guard, and if `new_items` is non-empty one aggregated
message is handed to the notifier. -/
def check_store (resp : StoreResponse) (c : CacheState) : StoreOutcome :=
  if resp.status ≠ 200 then
    { cache := c, sent := [], logs := [LogEvent.storeHttpError resp.status] }
  else
    let stores := resp.data.getD []
    let r := stores.foldl stepStore (c, [])
    if r.2 ≠ [] then
      { cache := r.1,
        sent := ["🛒 检测到新商品：\n\n" ++ String.intercalate "\n\n" r.2],
        logs := [] }
    else { cache := r.1, sent := [], logs := [] }

/-- One region detail record of the capacity response
(src/main.py lines 123-131).  `equity` is `region.get("equity", ...)`,
`capacity` is `region.get("capacity", ...)`, and `region_display` is
`region.get("region", {}).get("display", ...)`, each `none` when the
corresponding key is absent. -/
structure RegionDetail where
  equity : Option Bool
  capacity : Option String
  region_display : Option String
deriving Repr, DecidableEq

/-- One element of the top-level capacity list (a "region group"):
its `data` key holds the nested region-detail list, `none` when absent
or null. -/
structure RegionGroup where
  data : Option (List RegionDetail)
deriving Repr, DecidableEq

/-- The value of `data.get("data", [])` in `check_capacity`: either a
list of region groups, or some other JSON value (e.g. a mapping), which
fails the `isinstance(regions, list)` check. -/
inductive CapacityData where
  | list (groups : List RegionGroup)
  | notAList
deriving Repr, DecidableEq

/-- The capacity endpoint response, pre-parsed. -/
structure CapacityResponse where
  status : Nat
  data : CapacityData
deriving Repr, DecidableEq

/-- Result of one `check_capacity` call: messages handed to
`send_telegram_message` and error log events. -/
structure CapacityOutcome where
  sent : List String
  logs : List LogEvent
deriving Repr, DecidableEq

/-- The notification built for one qualifying region
(src/main.py line 130). -/
def capacityMessage (region_name : String) : String :=
  "🎉 " ++ region_name ++ " 区域的权益与容量启用！\n容量状态: 足够"

/-- The inner loop body of `check_capacity` (src/main.py lines 123-131)
for one region detail record: `equity = region.get("equity", False)`,
`capacity = region.get("capacity", "insufficient")`; under
`if equity and capacity != "insufficient":` one message naming
`region.get("region", {}).get("display", "未知区域")` is sent. -/
def processRegion (region : RegionDetail) : List String :=
  let equity := region.equity.getD false
  let capacity := region.capacity.getD "insufficient"
  if equity = true ∧ capacity ≠ "insufficient" then
    [capacityMessage (region.region_display.getD "未知区域")]
  else []

/-- The outer loop body of `check_capacity` (src/main.py lines 116-131)
for one region group: `region_details = region_data.get("data", [])`;
falsy (missing or empty) nested lists are skipped via `continue`,
otherwise every region detail record is processed in order. -/
def processGroup (acc : List String) (region_data : RegionGroup) : List String :=
  let region_details := region_data.data.getD []
  if region_details = [] then acc
  else region_details.foldl (fun a region => a ++ processRegion region) acc

/-- Function `check_capacity` (src/main.py lines 102-136) on a pre-parsed
response: a non-200 status is logged and the function returns; when
`data.get("data", [])` is a list, every region group is processed in
order; otherwise a structural error is logged. -/
def check_capacity (resp : CapacityResponse) : CapacityOutcome :=
  if resp.status ≠ 200 then
    { sent := [], logs := [LogEvent.capacityHttpError resp.status] }
  else
    match resp.data with
    | CapacityData.list groups => { sent := groups.foldl processGroup [], logs := [] }
    | CapacityData.notAList => { sent := [], logs := [LogEvent.capacityNotAList] }

/-- The notifier configuration read from the environment
(src/main.py lines 34-35, 39): `TG_BOT_TOKEN` and `TG_CHAT_ID`, each
`none` when the variable is unset. -/
structure NotifierConfig where
  TG_BOT_TOKEN : Option String
  TG_CHAT_ID : Option String
deriving Repr, DecidableEq

/-- Python truthiness of an optional string (unset or empty ⇒ falsy). -/
def truthyStr : Option String → Bool
  | none => false
  | some s => s != ""

/-- Truth of `bot = Bot(token=TG_BOT_TOKEN) if TG_BOT_TOKEN else None`
(src/main.py line 39): whether a bot object exists. -/
def botConfigured (cfg : NotifierConfig) : Bool := truthyStr cfg.TG_BOT_TOKEN

/-- Outcome of the underlying transport call
`bot.send_message(...)` for one invocation: it either succeeds or
raises some exception `e`. -/
inductive TransportResult where
  | ok
  | failed (e : String)
deriving Repr, DecidableEq

/-- What one `send_telegram_message` call did. -/
inductive SendOutcome where
  | sent
  | skippedDisabled
  | failedLogged (e : String)
deriving Repr, DecidableEq

/-- The transport call `await bot.send_message(chat_id=..., text=...)`:
may raise (modelled as `Except.error`). -/
def bot_send_message (transport : TransportResult) : Except String Unit :=
  match transport with
  | TransportResult.ok => Except.ok ()
  | TransportResult.failed e => Except.error e

/-- Function `send_telegram_message` (src/main.py lines 46-51): under
`if bot and TG_CHAT_ID:` the transport is called inside
`try/except Exception`, whose handler logs and falls through; with no
bot or no chat id the body is skipped entirely.  The outer `Except` is
the function's own exception behaviour towards its caller: it is
`Except.ok` in every case. -/
def send_telegram_message (cfg : NotifierConfig) (transport : TransportResult)
    (text : String) : Except String SendOutcome :=
  if botConfigured cfg = true ∧ truthyStr cfg.TG_CHAT_ID = true then
    match bot_send_message transport with
    | Except.ok _ => Except.ok SendOutcome.sent
    | Except.error e => Except.ok (SendOutcome.failedLogged e)
  else Except.ok SendOutcome.skippedDisabled

/-- Concrete store item fixtures and a cache that has already seen
id 1, used to instantiate the store-checker theorems. -/
def itemA : StoreItem :=
  { id := some 1, name := some "A", location := some "LA", price := some "PA" }

/-- Fresh store item with id 2. -/
def itemB : StoreItem :=
  { id := some 2, name := some "B", location := some "LB", price := some "PB" }

/-- Store item whose id key is present but falsy (0). -/
def itemZ : StoreItem :=
  { id := some 0, name := some "Z", location := some "L", price := some "P" }

/-- Cache already holding id 1. -/
def cacheA : CacheState := { last_seen_ids := [1], last_seen_queue := [1] }

/-- Region "X" with entitlement true and capacity "available". -/
def regionAvailX : RegionDetail :=
  { equity := some true, capacity := some "available", region_display := some "X" }

/-- Region "X" with entitlement true and capacity "insufficient". -/
def regionInsufX : RegionDetail :=
  { equity := some true, capacity := some "insufficient", region_display := some "X" }

/-- Region "X" with entitlement true and no capacity field. -/
def regionNoCapX : RegionDetail :=
  { equity := some true, capacity := none, region_display := some "X" }

/-- Region "X" with capacity "available" and no equity field. -/
def regionNoEquityX : RegionDetail :=
  { equity := none, capacity := some "available", region_display := some "X" }

/-- A region group holding the given nested detail list. -/
def groupOf (details : List RegionDetail) : RegionGroup := { data := some details }

/-- A 200 capacity response holding the given groups. -/
def capResp (groups : List RegionGroup) : CapacityResponse :=
  { status := 200, data := CapacityData.list groups }

/-- A 200 store response holding the given items. -/
def storeResp (items : List StoreItem) : StoreResponse :=
  { status := 200, data := some items }

/-- Spec-side reading of the capacity checker, for comparison with
`check_capacity`: for each region detail record, the condition is
"entitlement flag is true AND capacity status string is not the
sentinel insufficient" (missing fields defaulting as the code does),
and each qualifying record yields one notification naming the region
(placeholder label when the display name is absent), in source order. -/
def specQualifyingMessages (details : List RegionDetail) : List String :=
  details.filterMap (fun region =>
    if region.equity.getD false = true ∧ region.capacity.getD "insufficient" ≠ "insufficient"
    then some (capacityMessage (region.region_display.getD "未知区域"))
    else none)

/-- Unfolding of `processRegion` into its guard form. -/
theorem processRegion_eq (region : RegionDetail) :
    processRegion region
      = if region.equity.getD false = true ∧ region.capacity.getD "insufficient" ≠ "insufficient"
        then [capacityMessage (region.region_display.getD "未知区域")]
        else [] := rfl

/-- The inner fold of `check_capacity` collects exactly the qualifying
messages, in source order. -/
theorem foldl_processRegion (details : List RegionDetail) (acc : List String) :
    details.foldl (fun a region => a ++ processRegion region) acc
      = acc ++ specQualifyingMessages details := by
  induction details generalizing acc with
  | nil => simp [specQualifyingMessages]
  | cons r rest ih =>
    rw [List.foldl_cons, ih, processRegion_eq]
    unfold specQualifyingMessages
    rw [List.filterMap_cons]
    by_cases h : r.equity.getD false = true ∧ r.capacity.getD "insufficient" ≠ "insufficient"
    · rw [if_pos h, if_pos h]
      simp
    · rw [if_neg h, if_neg h]
      simp [specQualifyingMessages]

/-- The outer fold of `check_capacity` collects the qualifying messages
of every region group, in source order; groups with missing or empty
nested lists contribute nothing. -/
theorem foldl_processGroup (groups : List RegionGroup) (acc : List String) :
    groups.foldl processGroup acc
      = acc ++ (groups.map (fun g => specQualifyingMessages (g.data.getD []))).flatten := by
  induction groups generalizing acc with
  | nil => simp
  | cons g rest ih =>
    rw [List.foldl_cons]
    have hg : processGroup acc g = acc ++ specQualifyingMessages (g.data.getD []) := by
      unfold processGroup
      by_cases h : g.data.getD [] = []
      · rw [if_pos h, h]
        simp [specQualifyingMessages]
      · rw [if_neg h]
        exact foldl_processRegion _ acc
    rw [hg, ih]
    simp

/-- Messages sent by `check_capacity` on a well-shaped 200 response:
exactly the qualifying messages of all groups, in source order. -/
theorem check_capacity_sent (groups : List RegionGroup) :
    (check_capacity (capResp groups)).sent
      = (groups.map (fun g => specQualifyingMessages (g.data.getD []))).flatten := by
  have h := foldl_processGroup groups []
  simpa [check_capacity, capResp] using h

/-- A record whose id fails Python truthiness is skipped by the store
loop: the accumulator is unchanged. -/
theorem stepStore_falsy (acc : CacheState × List String) (store : StoreItem)
    (h : idTruthy store.id = false) : stepStore acc store = acc := by
  cases hs : store.id with
  | none => simp [stepStore, hs]
  | some n =>
    have hn : n = 0 := by simpa [idTruthy, hs] using h
    simp [stepStore, hs, hn]

/-- The store fold only looks at records with truthy ids. -/
theorem foldl_stepStore_filter (items : List StoreItem) (acc : CacheState × List String) :
    items.foldl stepStore acc
      = (items.filter (fun it => idTruthy it.id)).foldl stepStore acc := by
  induction items generalizing acc with
  | nil => rfl
  | cons it rest ih =>
    by_cases h : idTruthy it.id = true
    · have hf : (it :: rest).filter (fun i => idTruthy i.id)
          = it :: rest.filter (fun i => idTruthy i.id) := by
        simp [List.filter_cons, h]
      rw [List.foldl_cons, hf, List.foldl_cons, ih]
    · have hfalse : idTruthy it.id = false := by simpa using h
      have hf : (it :: rest).filter (fun i => idTruthy i.id)
          = rest.filter (fun i => idTruthy i.id) := by
        simp [List.filter_cons, hfalse]
      rw [List.foldl_cons, hf, stepStore_falsy acc it hfalse, ih]

/-- C1.  Recency Cache invariant claimed: after every observe/record
step the set and the queue hold the same elements and at most 1000 ids.
The code violates it: after observing the 1001 distinct nonzero ids
1..1001 from the empty cache, id 1 is still in `last_seen_ids` but no
longer in `last_seen_queue`, and the set holds 1001 > `MAX_CACHE_SIZE`
ids, because the popleft/discard branch (src/main.py lines 85-87) is
dead code under `deque(maxlen=MAX_CACHE_SIZE)`. -/
theorem cache_invariant_violated :
    (1 : Nat) ∈ s1001.last_seen_ids
    ∧ (1 : Nat) ∉ s1001.last_seen_queue
    ∧ s1001.last_seen_ids.length = MAX_CACHE_SIZE + 1 := by
  rw [s1001_spec]
  refine ⟨?_, ?_, ?_⟩
  · exact List.mem_map.mpr ⟨0, List.mem_range.mpr (by omega), rfl⟩
  · intro h
    rcases List.mem_map.mp h with ⟨n, _, hn⟩
    omega
  · simp only [List.length_map, List.length_range]
    rfl

/-- C2.  The claim says observe returns true again once an id has been
evicted.  The code violates it: after observing ids 1..1001 the queue
has dropped id 1 (it was evicted), yet a further observe of id 1 still
returns false, because id 1 was never discarded from `last_seen_ids`. -/
theorem observe_after_eviction_stays_false :
    (1 : Nat) ∉ s1001.last_seen_queue
    ∧ (observe s1001 1).2 = false := by
  have hm : (1 : Nat) ∈ s1001.last_seen_ids := by
    rw [s1001_spec]
    exact List.mem_map.mpr ⟨0, List.mem_range.mpr (by omega), rfl⟩
  refine ⟨?_, ?_⟩
  · rw [s1001_spec]
    intro h
    rcases List.mem_map.mp h with ⟨n, _, hn⟩
    omega
  · unfold observe
    rw [if_neg (fun hcon => hcon.2 hm)]

/-- C3.  The claim says eviction removes the single oldest id from both
set and queue, keeping the net size at most 1000.  The code violates
it: after observing 1..1001 the queue did drop the oldest id (it now
starts at 2), but id 1 was never removed from the set, whose size
exceeds `MAX_CACHE_SIZE`. -/
theorem eviction_not_synced :
    s1001.last_seen_queue = (List.range 1000).map (fun n => n + 2)
    ∧ (1 : Nat) ∈ s1001.last_seen_ids
    ∧ MAX_CACHE_SIZE < s1001.last_seen_ids.length := by
  refine ⟨?_, ?_, ?_⟩
  · rw [s1001_spec]
  · rw [s1001_spec]
    exact List.mem_map.mpr ⟨0, List.mem_range.mpr (by omega), rfl⟩
  · rw [s1001_spec]
    simp only [List.length_map, List.length_range]
    decide

/-- Spec-side collection of the new items of one store response, for
comparison with the fold of `check_store`: scanning the records in
source order, an item is collected exactly when the observe step
returns true for its id, with the cache advancing as observe leaves it. -/
def specNewItems : CacheState → List StoreItem → List StoreItem
  | _, [] => []
  | c, store :: rest =>
    match store.id with
    | none => specNewItems c rest
    | some item_id =>
        if (observe c item_id).2 then store :: specNewItems (observe c item_id).1 rest
        else specNewItems (observe c item_id).1 rest

/-- Unfolding of `observe` when the guard holds. -/
theorem observe_true (c : CacheState) (i : Nat) (h : i ≠ 0 ∧ i ∉ c.last_seen_ids) :
    observe c i = (observeRecord c i, true) := by
  unfold observe
  rw [if_pos h]

/-- Unfolding of `observe` when the guard fails. -/
theorem observe_false (c : CacheState) (i : Nat) (h : ¬ (i ≠ 0 ∧ i ∉ c.last_seen_ids)) :
    observe c i = (c, false) := by
  unfold observe
  rw [if_neg h]

/-- The collected `new_items` of the store fold are exactly the
renderings of the items for which observe returned true, in source
order. -/
theorem foldl_stepStore_snd (items : List StoreItem) :
    ∀ (c : CacheState) (acc : List String),
    (items.foldl stepStore (c, acc)).2 = acc ++ (specNewItems c items).map renderItem := by
  induction items with
  | nil =>
    intro c acc
    simp [specNewItems]
  | cons it rest ih =>
    intro c acc
    rw [List.foldl_cons]
    cases hid : it.id with
    | none =>
      have hs : stepStore (c, acc) it = (c, acc) := by
        simp [stepStore, hid]
      rw [hs, ih]
      simp [specNewItems, hid]
    | some i =>
      by_cases h : i ≠ 0 ∧ i ∉ c.last_seen_ids
      · have hs : stepStore (c, acc) it = (observeRecord c i, acc ++ [renderItem it]) := by
          simp only [stepStore, hid]
          rw [if_pos h]
        rw [hs, ih]
        simp [specNewItems, hid, observe_true c i h]
      · have hs : stepStore (c, acc) it = (c, acc) := by
          simp only [stepStore, hid]
          rw [if_neg h]
        rw [hs, ih]
        simp [specNewItems, hid, observe_false c i h]

/-- C4.  On a 200 store response with items `[A, B]` where A's id is
already resident and B's id is new, exactly one aggregated message is
handed to the notifier and it consists of B's rendered details only.
In general, on any 200 response the collected items are exactly those
for which observe returned true, rendered in source order; when at
least one item is new, exactly one aggregated message holding all of
their renderings is handed over, and when none is, nothing is. -/
theorem check_store_aggregated_notification
    (A B : StoreItem) (a b : Nat) (c : CacheState)
    (hA : A.id = some a) (haMem : a ∈ c.last_seen_ids)
    (hB : B.id = some b) (hb0 : b ≠ 0) (hbMem : b ∉ c.last_seen_ids) :
    (check_store { status := 200, data := some [A, B] } c).sent
      = ["🛒 检测到新商品：\n\n" ++ renderItem B]
    ∧ (∀ (resp : StoreResponse) (c₂ : CacheState), resp.status = 200 →
        ((resp.data.getD []).foldl stepStore (c₂, [])).2 = [] →
        (check_store resp c₂).sent = [])
    ∧ (∀ (items : List StoreItem) (c₂ : CacheState),
        (items.foldl stepStore (c₂, ([] : List String))).2
          = (specNewItems c₂ items).map renderItem
        ∧ (check_store (storeResp items) c₂).sent
          = (if specNewItems c₂ items = [] then []
             else ["🛒 检测到新商品：\n\n"
                    ++ String.intercalate "\n\n" ((specNewItems c₂ items).map renderItem)])) := by
  refine ⟨?_, ?_, ?_⟩
  · have h1 : stepStore (c, ([] : List String)) A = (c, []) := by
      simp only [stepStore, hA]
      rw [if_neg (fun hcon => hcon.2 haMem)]
    have h2 : stepStore (c, ([] : List String)) B = (observeRecord c b, [renderItem B]) := by
      simp only [stepStore, hB]
      rw [if_pos ⟨hb0, hbMem⟩]
      simp
    simp only [check_store, Option.getD_some, List.foldl_cons, List.foldl_nil, h1, h2]
    rfl
  · intro resp c₂ h200 hempty
    simp [check_store, h200, hempty]
  · intro items c₂
    have hsnd := foldl_stepStore_snd items c₂ []
    refine ⟨by simpa using hsnd, ?_⟩
    by_cases hnew : specNewItems c₂ items = []
    · simp [check_store, storeResp, hsnd, hnew]
    · have hne : (specNewItems c₂ items).map renderItem ≠ [] := by
        intro hmap
        exact hnew (by simpa using hmap)
      simp [check_store, storeResp, hsnd, hnew, hne]

/-- Closed instance of C4: with id 1 cached, items A (id 1) and
B (id 2) produce exactly one message holding only B's details. -/
theorem check_store_aggregated_notification_witness :
    (check_store (storeResp [itemA, itemB]) cacheA).sent
      = ["🛒 检测到新商品：\n\n" ++ renderItem itemB] :=
  (check_store_aggregated_notification itemA itemB 1 2 cacheA
    rfl (by decide) rfl (by decide) (by decide)).1

/-- C5.  A non-200 status from either endpoint: the checker logs the
failure, hands nothing to the notifier and leaves the cache untouched
(both functions return normally). -/
theorem checkers_non200_noop (sresp : StoreResponse) (cresp : CapacityResponse)
    (c : CacheState) (hs : sresp.status ≠ 200) (hc : cresp.status ≠ 200) :
    check_store sresp c
      = { cache := c, sent := [], logs := [LogEvent.storeHttpError sresp.status] }
    ∧ check_capacity cresp
      = { sent := [], logs := [LogEvent.capacityHttpError cresp.status] } :=
  ⟨by simp [check_store, hs], by simp [check_capacity, hc]⟩

/-- Closed instance of C5 at statuses 404 and 500. -/
theorem checkers_non200_noop_witness :
    check_store { status := 404, data := none } initialCache
      = { cache := initialCache, sent := [], logs := [LogEvent.storeHttpError 404] }
    ∧ check_capacity { status := 500, data := CapacityData.notAList }
      = { sent := [], logs := [LogEvent.capacityHttpError 500] } :=
  checkers_non200_noop _ _ _ (by decide) (by decide)

/-- C6.  On a well-shaped 200 capacity response the messages handed to
the notifier are exactly one per qualifying region detail record
(entitlement true and capacity not "insufficient"), naming the region
or the placeholder, in source order — and in particular a region "X"
with entitlement true and capacity "available" yields its message,
while capacity "insufficient" yields none. -/
theorem check_capacity_region_condition :
    (∀ groups : List RegionGroup,
      (check_capacity (capResp groups)).sent
        = (groups.map (fun g => specQualifyingMessages (g.data.getD []))).flatten)
    ∧ (check_capacity (capResp [groupOf [regionAvailX]])).sent = [capacityMessage "X"]
    ∧ (check_capacity (capResp [groupOf [regionInsufX]])).sent = [] := by
  refine ⟨check_capacity_sent, ?_, ?_⟩
  · rfl
  · rfl

/-- C7.  A capacity payload whose top-level value is not a list yields
a logged structural error and no messages (and the function returns
normally); groups whose nested list is missing or empty are skipped
and produce no message. -/
theorem check_capacity_malformed_payload :
    check_capacity { status := 200, data := CapacityData.notAList }
      = { sent := [], logs := [LogEvent.capacityNotAList] }
    ∧ ∀ groups : List RegionGroup, (∀ g ∈ groups, g.data.getD [] = []) →
        (check_capacity (capResp groups)).sent = [] := by
  refine ⟨rfl, ?_⟩
  intro groups hall
  rw [check_capacity_sent]
  have h : groups.map (fun g => specQualifyingMessages (g.data.getD []))
      = groups.map (fun _ => []) :=
    List.map_congr_left (fun g hg => by rw [hall g hg]; rfl)
  rw [h]
  simp

/-- Closed instance of C7: one group with a missing nested list and one
with an empty nested list produce no message. -/
theorem check_capacity_malformed_payload_witness :
    (check_capacity (capResp [{ data := none }, groupOf []])).sent = [] :=
  check_capacity_malformed_payload.2 [{ data := none }, groupOf []] (by decide)

/-- C8.  The notify operation never raises to its caller: it is a
silent no-op when the bot or the chat id is not configured, and on a
transport failure it logs the failure and returns normally. -/
theorem send_telegram_never_raises (cfg : NotifierConfig) (tr : TransportResult)
    (text : String) :
    (send_telegram_message cfg tr text).isOk = true
    ∧ (botConfigured cfg = false ∨ truthyStr cfg.TG_CHAT_ID = false →
        send_telegram_message cfg tr text = Except.ok SendOutcome.skippedDisabled)
    ∧ (∀ e, botConfigured cfg = true → truthyStr cfg.TG_CHAT_ID = true →
        tr = TransportResult.failed e →
        send_telegram_message cfg tr text = Except.ok (SendOutcome.failedLogged e)) := by
  refine ⟨?_, ?_, ?_⟩
  · unfold send_telegram_message
    by_cases h : botConfigured cfg = true ∧ truthyStr cfg.TG_CHAT_ID = true
    · rw [if_pos h]
      cases tr <;> rfl
    · rw [if_neg h]
      rfl
  · intro hdis
    unfold send_telegram_message
    have h : ¬ (botConfigured cfg = true ∧ truthyStr cfg.TG_CHAT_ID = true) := by
      rcases hdis with h1 | h1 <;> simp [h1]
    rw [if_neg h]
  · intro e hb hcid htr
    unfold send_telegram_message
    rw [if_pos ⟨hb, hcid⟩, htr]
    rfl

/-- Closed instance of C8: a missing bot token gives a silent no-op,
and a configured notifier whose transport raises returns normally with
the failure logged. -/
theorem send_telegram_never_raises_witness :
    send_telegram_message ⟨none, some "c"⟩ TransportResult.ok "hello"
      = Except.ok SendOutcome.skippedDisabled
    ∧ send_telegram_message ⟨some "t", some "c"⟩ (TransportResult.failed "boom") "hello"
      = Except.ok (SendOutcome.failedLogged "boom") :=
  ⟨(send_telegram_never_raises _ _ _).2.1 (Or.inl (by decide)),
   (send_telegram_never_raises _ _ _).2.2 "boom" (by decide) (by decide) rfl⟩

/-- C9 counterexample.  A record whose identifier is present but falsy
(id 0) is not passed to the cache: on a 200 response holding only that
record the cache stays empty and nothing is handed to the notifier,
although its identifier field is present — refuting the claim that
every record with a present identifier is observed. -/
theorem store_present_id_counterexample :
    itemZ.id.isSome = true
    ∧ check_store (storeResp [itemZ]) initialCache
      = { cache := initialCache, sent := [], logs := [] } := by
  refine ⟨rfl, ?_⟩
  rfl

/-- C9 amended.  Exactly the records with a present and truthy
(nonzero) identifier are checked against the cache: records with an
absent or falsy identifier are skipped, leaving cache and collected
items untouched, so `check_store` behaves as if they were filtered out. -/
theorem check_store_truthy_ids_only (items : List StoreItem) (c : CacheState)
    (it : StoreItem) (hfalsy : idTruthy it.id = false) :
    check_store (storeResp items) c
      = check_store (storeResp (items.filter (fun i => idTruthy i.id))) c
    ∧ ∀ acc : CacheState × List String, stepStore acc it = acc := by
  constructor
  · simp only [check_store, storeResp, Option.getD_some]
    rw [foldl_stepStore_filter items (c, [])]
  · exact fun acc => stepStore_falsy acc it hfalsy

/-- Closed instance of the amended C9 at a falsy-id record. -/
theorem check_store_truthy_ids_only_witness :
    check_store (storeResp [itemZ]) initialCache
      = check_store (storeResp ([itemZ].filter (fun i => idTruthy i.id))) initialCache :=
  (check_store_truthy_ids_only [itemZ] initialCache itemZ (by decide)).1

/-- C10.  Implicit defaults of the capacity condition: a record without
a capacity field defaults to "insufficient" and never notifies, even
with entitlement true; a record without an equity field defaults to
entitlement false and never notifies, whatever its capacity. -/
theorem capacity_missing_field_defaults (region : RegionDetail) :
    (region.capacity = none →
      (check_capacity (capResp [groupOf [region]])).sent = [])
    ∧ (region.equity = none →
      (check_capacity (capResp [groupOf [region]])).sent = []) := by
  constructor
  · intro hcap
    rw [check_capacity_sent]
    simp [specQualifyingMessages, groupOf, hcap]
  · intro heq
    rw [check_capacity_sent]
    simp [specQualifyingMessages, groupOf, heq]

/-- Closed instance of C10: a record with entitlement true but no
capacity field, and a record with capacity "available" but no equity
field, both produce no message. -/
theorem capacity_missing_field_defaults_witness :
    (check_capacity (capResp [groupOf [regionNoCapX]])).sent = []
    ∧ (check_capacity (capResp [groupOf [regionNoEquityX]])).sent = [] :=
  ⟨(capacity_missing_field_defaults regionNoCapX).1 rfl,
   (capacity_missing_field_defaults regionNoEquityX).2 rfl⟩

end DuckyBot
